import Mathlib

/-!
Shallow embedding of the podinfo-operator reconciler core
(`podinfo_operator/kubeutils.py` and `podinfo_operator/podinfo_operator.py`).

The cluster API is modelled at two levels of abstraction:

* "flow" functions (`create_or_update_deployment_flow`, `teardown_deployment_flow`, ...)
  embed the `try/except ApiException` control flow of the kubeutils wrappers,
  parameterised by the outcome of the underlying cluster API call, so arbitrary
  server errors (status 500, 403, ...) can be injected.

* a state monad `M` over a healthy single-namespace cluster (`Cluster`), used for
  the reconciler handlers `on_create` / `on_update`.  The server assigns uids and
  creation timestamps from a counter, answers create with a 409 conflict when the
  name already exists, patch/delete with 404 when absent, and every API call (and
  every `kopf.adopt` call) is recorded in an event trace.
-/

/-- A Python exception relevant to this code base: a kubernetes `ApiException`
carrying an HTTP status, an `UnboundLocalError` naming the unbound variable, or a
`KeyError` naming the missing key. -/
inductive PyExc where
  | apiException (status : Nat)
  | unboundLocalError (var : String)
  | keyError (key : String)
deriving DecidableEq

/-- Outcome of a single raw cluster API call: a value, or an `ApiException`
with the given HTTP status. -/
inductive ApiResult (α : Type) where
  | ok (val : α)
  | exc (status : Nat)
deriving DecidableEq

/-- Resource requirements (`V1ResourceRequirements`): requests and limits as
key/value lists. -/
structure Resources where
  requests : List (String × String)
  limits : List (String × String)
deriving DecidableEq

/-- A container environment variable (`V1EnvVar`). -/
structure EnvVar where
  name : String
  value : String
deriving DecidableEq

/-- The deployment object built by `create_deployment_object`: one container named
`name` with image `registry:tag`, the given replicas, resources, exposed port and
env list.  The `adopted` flag models whether `kopf.adopt` has marked the object
with an owner reference to the parent resource. -/
structure DeploymentObj where
  name : String
  ns : String
  image : String
  replicas : Nat
  resources : Resources
  port : Nat
  env : Option (List EnvVar)
  adopted : Bool
deriving DecidableEq

/-- The ClusterIP service object built by `create_service_object`. -/
structure ServiceObj where
  name : String
  ns : String
  port : Nat
  adopted : Bool
deriving DecidableEq

/-- A live deployment as stored by the cluster: the last applied object plus the
server-assigned uid and (already `%c`-formatted) creation timestamp. -/
structure LiveDeployment where
  obj : DeploymentObj
  uid : String
  createdOn : String
deriving DecidableEq

/-- `create_deployment_object` from kubeutils.py: pure construction of the
desired deployment object (labels/selector are determined by `name` and are not
re-modelled).  Objects are built un-adopted. -/
def create_deployment_object (name ns image_registry image_tag : String)
    (replicas : Nat) (resources : Resources) (expose_port : Nat)
    (env_vars : Option (List EnvVar)) : DeploymentObj :=
  { name := name, ns := ns, image := image_registry ++ ":" ++ image_tag,
    replicas := replicas, resources := resources, port := expose_port,
    env := env_vars, adopted := false }

/-- `create_service_object` from kubeutils.py: pure construction of the ClusterIP
service object. -/
def create_service_object (name ns : String) (port : Nat) : ServiceObj :=
  { name := name, ns := ns, port := port, adopted := false }

/-- `create_or_update_deployment` from kubeutils.py, parameterised by the outcome
of the two raw API calls it can make.  Mirrors the source exactly:
`try: deployment = create(...)` / `except ApiException as ex: if ex.status == 409:
deployment = patch(...)` / `return deployment`.  When create fails with a status
other than 409 the exception is caught, the `if` does not fire, and the final
`return deployment` raises `UnboundLocalError` for the local `deployment`. -/
def create_or_update_deployment_flow (createRes patchRes : ApiResult LiveDeployment) :
    Except PyExc LiveDeployment :=
  match createRes with
  | .ok d => .ok d
  | .exc s =>
    if s == 409 then
      match patchRes with
      | .ok d => .ok d
      | .exc s2 => .error (.apiException s2)
    else
      .error (.unboundLocalError "deployment")

/-- `create_or_update_service` from kubeutils.py, parameterised like
`create_or_update_deployment_flow`; the unbound local here is `service`. -/
def create_or_update_service_flow (createRes patchRes : ApiResult ServiceObj) :
    Except PyExc ServiceObj :=
  match createRes with
  | .ok v => .ok v
  | .exc s =>
    if s == 409 then
      match patchRes with
      | .ok v => .ok v
      | .exc s2 => .error (.apiException s2)
    else
      .error (.unboundLocalError "service")

/-- `teardown_deployment` from kubeutils.py, parameterised by the outcome of the
delete call: `try: return delete(...)` / `except ApiException as ex:
if not ex.status == 404: raise` — on 404 the handler falls through and the
function returns `None` (modelled as `Option.none`). -/
def teardown_deployment_flow (delRes : ApiResult Unit) : Except PyExc (Option Unit) :=
  match delRes with
  | .ok st => .ok (some st)
  | .exc s => if !(s == 404) then .error (.apiException s) else .ok Option.none

/-- `teardown_service` from kubeutils.py, same shape as `teardown_deployment`. -/
def teardown_service_flow (delRes : ApiResult Unit) : Except PyExc (Option Unit) :=
  match delRes with
  | .ok st => .ok (some st)
  | .exc s => if !(s == 404) then .error (.apiException s) else .ok Option.none

/-! ## Constants of podinfo_operator.py -/

def PODINFO_DEPLOYMENT_NAME : String := "podinfo"

def PODINFO_PORT : Nat := 9898

def REDIS_DEPLOYMENT_NAME : String := "redis"

def REDIS_PORT : Nat := 6379

/-- The `{created_on, uid}` metadata returned for each child component. -/
structure ChildStatus where
  created_on : String
  uid : String
deriving DecidableEq

def DEFAULT_STATUS : ChildStatus := { created_on := "Not Created", uid := "" }

/-! ## ParentSpec (the custom resource's spec) -/

structure ImageSpec where
  repository : String
  tag : String
deriving DecidableEq

structure ResourcesSpec where
  cpuRequest : String
  memoryLimit : String
deriving DecidableEq

/-- The optional `redis` subtree of the spec; `enabled` may itself be absent. -/
structure RedisSpec where
  enabled : Option Bool
deriving DecidableEq

/-- The custom resource spec.  The fields required by the podinfo create path
(image, replicaCount, resources) are modelled as present; `ui` and `redis` are
optional as in the source (`spec.get("ui", {})`, `spec.get("redis", {})`).
`ui` is an insertion-ordered mapping, modelled as a key/value list. -/
structure ParentSpec where
  image : ImageSpec
  replicaCount : Nat
  resources : ResourcesSpec
  ui : Option (List (String × String))
  redis : Option RedisSpec
deriving DecidableEq

/-- `spec.get("redis", {}).get("enabled")` under Python truthiness: absent keys
and `False` are falsy, only `True` enables redis. -/
def specRedisEnabled (spec : ParentSpec) : Bool :=
  match spec.redis with
  | Option.none => false
  | some r => r.enabled.getD false

/-- The `ui_vars` list comprehension of `create_podinfo_deployment_and_service`:
one `PODINFO_UI_<UPPERCASED_KEY>` variable per key of `spec.ui`, in order. -/
def podinfo_ui_vars (spec : ParentSpec) : List EnvVar :=
  (spec.ui.getD []).map (fun kv => { name := "PODINFO_UI_" ++ kv.1.toUpper, value := kv.2 })

/-- The `default_env_vars` list of `create_podinfo_deployment_and_service`: the
single fixed `PODINFO_CACHE_SERVER` variable, set unconditionally. -/
def podinfo_default_env_vars : List EnvVar :=
  [{ name := "PODINFO_CACHE_SERVER",
     value := "tcp://" ++ REDIS_DEPLOYMENT_NAME ++ ":" ++ toString REDIS_PORT }]

/-- `env_vars = default_env_vars + ui_vars` from
`create_podinfo_deployment_and_service`. -/
def podinfo_env_vars (spec : ParentSpec) : List EnvVar :=
  podinfo_default_env_vars ++ podinfo_ui_vars spec

/-! ## The healthy-cluster state monad -/

/-- Which kind of child object an event concerns. -/
inductive Kind where
  | deployment
  | service
deriving DecidableEq

/-- One recorded interaction with the outside world: a `kopf.adopt` call, or one
raw cluster API call (the create/patch/delete/list endpoints used by
kubeutils.py).  Create and patch events carry the body that was sent. -/
inductive CallEvent where
  | adopt (kind : Kind) (name : String)
  | createDep (obj : DeploymentObj)
  | patchDep (name : String) (obj : DeploymentObj)
  | deleteDep (name : String)
  | listDeps
  | createSvc (obj : ServiceObj)
  | patchSvc (name : String) (obj : ServiceObj)
  | deleteSvc (name : String)
deriving DecidableEq

/-- The single-namespace cluster: live deployments and services, plus the
counter from which the server mints uids and creation timestamps. -/
structure Cluster where
  deployments : List LiveDeployment
  services : List ServiceObj
  counter : Nat
deriving DecidableEq

/-- Uid the server assigns to the `n`-th created deployment. -/
def mkUid (n : Nat) : String := "uid-" ++ toString n

/-- (Formatted) creation timestamp the server assigns to the `n`-th created
deployment. -/
def mkCreatedOn (n : Nat) : String := "ts-" ++ toString n

structure OpState where
  cluster : Cluster
  trace : List CallEvent
deriving DecidableEq

/-- The reconciler monad: state (cluster + event trace) with Python exceptions.
State changes made before an exception is raised are retained, as in Python. -/
def M (α : Type) : Type := OpState → Except PyExc α × OpState

def M.pure (a : α) : M α := fun s => (.ok a, s)

def M.bind (x : M α) (f : α → M β) : M β := fun s =>
  match x s with
  | (.ok a, s1) => f a s1
  | (.error e, s1) => (.error e, s1)

instance : Monad M where
  pure := M.pure
  bind := M.bind

/-- `raise e` in Python. -/
def M.throw (e : PyExc) : M α := fun s => (.error e, s)

/-- `try: x except: h` in Python: the handler sees the state as left by `x`. -/
def M.tryCatch (x : M α) (h : PyExc → M α) : M α := fun s =>
  match x s with
  | (.ok a, s1) => (.ok a, s1)
  | (.error e, s1) => h e s1

theorem M.bind_apply (x : M α) (f : α → M β) (s : OpState) :
    (x >>= f) s =
      match x s with
      | (.ok a, s1) => f a s1
      | (.error e, s1) => (.error e, s1) := rfl

theorem M.pure_apply (a : α) (s : OpState) :
    (Pure.pure (f := M) a) s = (.ok a, s) := rfl

/-! ### The modelled cluster API (server side)

Pure `upsert` helpers describe the combined effect of the create-then-patch
pattern on the cluster; the raw API calls below are what the embedded kubeutils
functions invoke. -/

/-- `create_namespaced_deployment`: 409 conflict when the name exists, otherwise
the server stores the body with a fresh uid and creation timestamp. -/
def api_create_namespaced_deployment (obj : DeploymentObj) : M LiveDeployment := fun s =>
  match s.cluster.deployments.find? (fun d => d.obj.name == obj.name) with
  | some _ => (.error (.apiException 409), { s with trace := s.trace ++ [.createDep obj] })
  | Option.none =>
    let live : LiveDeployment :=
      { obj := obj, uid := mkUid s.cluster.counter, createdOn := mkCreatedOn s.cluster.counter }
    (.ok live,
      { cluster := { deployments := s.cluster.deployments ++ [live],
                     services := s.cluster.services,
                     counter := s.cluster.counter + 1 },
        trace := s.trace ++ [.createDep obj] })

/-- `patch_namespaced_deployment`: replaces the spec of the named deployment,
keeping its uid and creation timestamp; 404 when absent. -/
def api_patch_namespaced_deployment (name : String) (obj : DeploymentObj) :
    M LiveDeployment := fun s =>
  match s.cluster.deployments.find? (fun d => d.obj.name == name) with
  | some d =>
    let d2 : LiveDeployment := { obj := obj, uid := d.uid, createdOn := d.createdOn }
    (.ok d2,
      { cluster := { deployments :=
                       s.cluster.deployments.map (fun x => if x.obj.name == name then d2 else x),
                     services := s.cluster.services,
                     counter := s.cluster.counter },
        trace := s.trace ++ [.patchDep name obj] })
  | Option.none => (.error (.apiException 404), { s with trace := s.trace ++ [.patchDep name obj] })

/-- `delete_namespaced_deployment`: removes the named deployment; 404 when absent. -/
def api_delete_namespaced_deployment (name : String) : M Unit := fun s =>
  if s.cluster.deployments.any (fun d => d.obj.name == name) then
    (.ok (),
      { cluster := { deployments := s.cluster.deployments.filter (fun d => !(d.obj.name == name)),
                     services := s.cluster.services,
                     counter := s.cluster.counter },
        trace := s.trace ++ [.deleteDep name] })
  else (.error (.apiException 404), { s with trace := s.trace ++ [.deleteDep name] })

/-- `create_namespaced_service`: 409 when the name exists, otherwise stores the body. -/
def api_create_namespaced_service (obj : ServiceObj) : M ServiceObj := fun s =>
  match s.cluster.services.find? (fun v => v.name == obj.name) with
  | some _ => (.error (.apiException 409), { s with trace := s.trace ++ [.createSvc obj] })
  | Option.none =>
    (.ok obj,
      { cluster := { deployments := s.cluster.deployments,
                     services := s.cluster.services ++ [obj],
                     counter := s.cluster.counter },
        trace := s.trace ++ [.createSvc obj] })

/-- `patch_namespaced_service`: replaces the named service; 404 when absent. -/
def api_patch_namespaced_service (name : String) (obj : ServiceObj) : M ServiceObj := fun s =>
  match s.cluster.services.find? (fun v => v.name == name) with
  | some _ =>
    (.ok obj,
      { cluster := { deployments := s.cluster.deployments,
                     services := s.cluster.services.map (fun x => if x.name == name then obj else x),
                     counter := s.cluster.counter },
        trace := s.trace ++ [.patchSvc name obj] })
  | Option.none => (.error (.apiException 404), { s with trace := s.trace ++ [.patchSvc name obj] })

/-- `delete_namespaced_service`: removes the named service; 404 when absent. -/
def api_delete_namespaced_service (name : String) : M Unit := fun s =>
  if s.cluster.services.any (fun v => v.name == name) then
    (.ok (),
      { cluster := { deployments := s.cluster.deployments,
                     services := s.cluster.services.filter (fun v => !(v.name == name)),
                     counter := s.cluster.counter },
        trace := s.trace ++ [.deleteSvc name] })
  else (.error (.apiException 404), { s with trace := s.trace ++ [.deleteSvc name] })

/-- `kopf.adopt` on a deployment object: marks it as owned by the parent
resource (in-place in Python; here it returns the marked object). -/
def kopf_adopt_deployment (obj : DeploymentObj) : M DeploymentObj := fun s =>
  (.ok { obj with adopted := true }, { s with trace := s.trace ++ [.adopt .deployment obj.name] })

/-- `kopf.adopt` on a service object. -/
def kopf_adopt_service (obj : ServiceObj) : M ServiceObj := fun s =>
  (.ok { obj with adopted := true }, { s with trace := s.trace ++ [.adopt .service obj.name] })

/-! ### kubeutils.py over the healthy cluster -/

/-- `create_or_update_deployment` from kubeutils.py over the modelled cluster:
try create, on `ApiException` patch when the status is 409, otherwise the raw
`return deployment` raises `UnboundLocalError` (see
`create_or_update_deployment_flow` for the error-injected embedding). -/
def create_or_update_deployment (name : String) (deploy_obj : DeploymentObj)
    (_ns : String) : M LiveDeployment :=
  M.tryCatch (api_create_namespaced_deployment deploy_obj) (fun ex =>
    match ex with
    | .apiException st =>
      if st == 409 then api_patch_namespaced_deployment name deploy_obj
      else M.throw (.unboundLocalError "deployment")
    | e => M.throw e)

/-- `create_or_update_service` from kubeutils.py over the modelled cluster. -/
def create_or_update_service (name : String) (svc_obj : ServiceObj)
    (_ns : String) : M ServiceObj :=
  M.tryCatch (api_create_namespaced_service svc_obj) (fun ex =>
    match ex with
    | .apiException st =>
      if st == 409 then api_patch_namespaced_service name svc_obj
      else M.throw (.unboundLocalError "service")
    | e => M.throw e)

/-- `teardown_deployment` from kubeutils.py over the modelled cluster: delete,
swallowing 404 (returning `None`), re-raising anything else. -/
def teardown_deployment (name : String) (_ns : String) : M (Option Unit) :=
  M.tryCatch (M.bind (api_delete_namespaced_deployment name) (fun st => M.pure (some st)))
    (fun ex =>
      match ex with
      | .apiException st => if !(st == 404) then M.throw ex else M.pure Option.none
      | e => M.throw e)

/-- `teardown_service` from kubeutils.py over the modelled cluster. -/
def teardown_service (name : String) (_ns : String) : M (Option Unit) :=
  M.tryCatch (M.bind (api_delete_namespaced_service name) (fun st => M.pure (some st)))
    (fun ex =>
      match ex with
      | .apiException st => if !(st == 404) then M.throw ex else M.pure Option.none
      | e => M.throw e)

/-- `get_deployment` from kubeutils.py: lists the namespace's deployments and
linearly scans for the first name match, returning `None` when absent. -/
def get_deployment (name : String) (_ns : String) : M (Option LiveDeployment) := fun s =>
  (.ok (s.cluster.deployments.find? (fun d => d.obj.name == name)),
   { s with trace := s.trace ++ [.listDeps] })

/-! ## podinfo_operator.py -/

/-- `create_deployment_and_service` from podinfo_operator.py: build the
deployment and service objects, adopt both under the parent, create-or-update
both, and return `{created_on, uid}` taken from the live deployment. -/
def create_deployment_and_service (name ns image_repo image_tag : String)
    (replicas : Nat) (resources : Resources) (expose_port : Nat)
    (env_vars : Option (List EnvVar)) : M ChildStatus := do
  let deploy_obj := create_deployment_object name ns image_repo image_tag
    replicas resources expose_port env_vars
  let svc_obj := create_service_object name ns expose_port
  let deploy_obj ← kopf_adopt_deployment deploy_obj
  let svc_obj ← kopf_adopt_service svc_obj
  let deployment ← create_or_update_deployment name deploy_obj ns
  let _service ← create_or_update_service name svc_obj ns
  Pure.pure { created_on := deployment.createdOn, uid := deployment.uid }

/-- `create_podinfo_deployment_and_service` from podinfo_operator.py. -/
def create_podinfo_deployment_and_service (ns : String) (spec : ParentSpec) :
    M ChildStatus :=
  create_deployment_and_service PODINFO_DEPLOYMENT_NAME ns
    spec.image.repository spec.image.tag spec.replicaCount
    { requests := [("cpu", spec.resources.cpuRequest)],
      limits := [("memory", spec.resources.memoryLimit)] }
    PODINFO_PORT (some (podinfo_env_vars spec))

/-- The fixed resource profile of the redis deployment. -/
def redis_resources : Resources :=
  { requests := [("cpu", "100m"), ("memory", "32Mi")],
    limits := [("cpu", "1000m"), ("memory", "128Mi")] }

/-- `create_redis_deployment_and_service` from podinfo_operator.py: fixed image
`redis:7.0.12`, one replica, fixed resources, and no env vars (the `env_vars`
argument is left at its `None` default). -/
def create_redis_deployment_and_service (ns : String) (_spec : ParentSpec) :
    M ChildStatus :=
  create_deployment_and_service REDIS_DEPLOYMENT_NAME ns
    "redis" "7.0.12" 1 redis_resources REDIS_PORT Option.none

/-- The status map returned by the handlers: component name to `ChildStatus`,
modelled as an insertion-ordered key/value list (Python dict). -/
abbrev ChildrenMap : Type := List (String × ChildStatus)

/-- Python `d.update({k: v})` on an insertion-ordered dict: replace the value in
place when the key exists, otherwise append. -/
def dictUpdate (m : ChildrenMap) (k : String) (v : ChildStatus) : ChildrenMap :=
  if m.any (fun kv => kv.1 == k) then
    m.map (fun kv => if kv.1 == k then (k, v) else kv)
  else m ++ [(k, v)]

/-- The value returned by `on_create` (persisted by kopf under
`status.on_create`). -/
structure CreateResult where
  children : ChildrenMap
deriving DecidableEq

/-- `on_create` from podinfo_operator.py: always create podinfo; create redis
only when `spec.redis.enabled` is truthy, otherwise report the default
uncreated status; return `{children: {redis: ..., podInfo: ...}}`. -/
def on_create (spec : ParentSpec) (ns : String) : M CreateResult := do
  let redis_enabled := specRedisEnabled spec
  let podinfo_status ← create_podinfo_deployment_and_service ns spec
  let redis_status ←
    if redis_enabled then create_redis_deployment_and_service ns spec
    else Pure.pure DEFAULT_STATUS
  Pure.pure { children := [("redis", redis_status), ("podInfo", podinfo_status)] }

/-- A Python value appearing as the old/new side of a kopf diff entry. -/
inductive PyVal where
  | pynone
  | bool (b : Bool)
  | str (s : String)
  | int (n : Int)
deriving DecidableEq

/-- Python truthiness of a `PyVal`. -/
def PyVal.truthy : PyVal → Bool
  | .pynone => false
  | .bool b => b
  | .str s => !(s == "")
  | .int n => !(n == 0)

/-- One kopf diff entry `(operation, field, old, new)`; `field` is the tuple of
path segments of the changed field. -/
structure DiffEntry where
  oper : String
  field : List String
  old : PyVal
  new : PyVal
deriving DecidableEq

/-- The persisted `status["on_create"]` subtree as read by `on_update`;
`Option.none` models a missing `children` key. -/
structure CreateStatus where
  children : Option ChildrenMap
deriving DecidableEq

/-- The parent's persisted status as passed to `on_update`; `Option.none`
models a missing `on_create` key. -/
structure PersistedStatus where
  on_create : Option CreateStatus
deriving DecidableEq

/-- The `if "redis" in field` body of `on_update`: when the change is exactly
`(spec, redis, enabled)` turning truthy, create redis unless a "redis"
deployment already exists; any other redis-path change tears down the redis
deployment and service. -/
def redis_branch (spec : ParentSpec) (ns : String) (e : DiffEntry)
    (new_status : ChildrenMap) : M ChildrenMap := do
  let redis_enabled := (e.field == ["spec", "redis", "enabled"]) && e.new.truthy
  if redis_enabled then do
    let dep ← get_deployment "redis" ns
    match dep with
    | some _ => Pure.pure new_status
    | Option.none => do
      let redis_status ← create_redis_deployment_and_service ns spec
      Pure.pure (dictUpdate new_status "redis" redis_status)
  else do
    let _ ← teardown_deployment "redis" ns
    let _ ← teardown_service "redis" ns
    Pure.pure new_status

/-- The `else` body of `on_update`'s loop: re-run the podinfo sequence only when
a "podinfo" deployment exists; otherwise ignore the change. -/
def podinfo_branch (spec : ParentSpec) (ns : String)
    (new_status : ChildrenMap) : M ChildrenMap := do
  let dep ← get_deployment "podinfo" ns
  match dep with
  | some _ => do
    let podinfo_status ← create_podinfo_deployment_and_service ns spec
    Pure.pure (dictUpdate new_status "podInfo" podinfo_status)
  | Option.none => Pure.pure new_status

/-- One iteration of `on_update`'s `for oper, field, old_val, new_val in diff`
loop: route on `"redis" in field` (tuple membership). -/
def on_update_step (spec : ParentSpec) (ns : String) (e : DiffEntry)
    (new_status : ChildrenMap) : M ChildrenMap :=
  if e.field.contains "redis" then redis_branch spec ns e new_status
  else podinfo_branch spec ns new_status

/-- The whole `for` loop of `on_update`, threading the mutated `new_status`. -/
def on_update_loop (spec : ParentSpec) (ns : String) :
    List DiffEntry → ChildrenMap → M ChildrenMap
  | [], new_status => Pure.pure new_status
  | e :: rest, new_status => do
    let acc ← on_update_step spec ns e new_status
    on_update_loop spec ns rest acc

/-- `on_update` from podinfo_operator.py: read
`status["on_create"]["children"]` (raising `KeyError` when either key is
missing), process every diff entry, and return the merged map. -/
def on_update (spec : ParentSpec) (status : PersistedStatus) (ns : String)
    (diff : List DiffEntry) : M ChildrenMap := do
  let oc ←
    match status.on_create with
    | some oc => Pure.pure oc
    | Option.none => M.throw (.keyError "on_create")
  let new_status ←
    match oc.children with
    | some m => Pure.pure m
    | Option.none => M.throw (.keyError "children")
  on_update_loop spec ns diff new_status

/-! ## Example fixtures (shared by witnesses and counterexamples) -/

def exSpec : ParentSpec :=
  { image := { repository := "repo", tag := "v1" }, replicaCount := 2,
    resources := { cpuRequest := "50m", memoryLimit := "64Mi" },
    ui := some [("color", "blue"), ("message", "hi")],
    redis := some { enabled := some true } }

def exClusterEmpty : Cluster := { deployments := [], services := [], counter := 0 }

def exState : OpState := { cluster := exClusterEmpty, trace := [] }

def exChildren : ChildrenMap :=
  [("redis", DEFAULT_STATUS), ("podInfo", { created_on := "t0", uid := "u0" })]

def exStatus : PersistedStatus := { on_create := some { children := some exChildren } }

def exLiveDep : LiveDeployment :=
  { obj := { name := "podinfo", ns := "ns", image := "repo:v1", replicas := 2,
             resources := { requests := [], limits := [] }, port := 9898,
             env := Option.none, adopted := true },
    uid := "uid-x", createdOn := "ts-x" }

def exSvcObj : ServiceObj := { name := "podinfo", ns := "ns", port := 9898, adopted := true }

/-- A diff entry whose field path merely contains `redis` as a substring of a
segment, without any segment being exactly `redis`. -/
def exDiffRedisConfig : DiffEntry :=
  { oper := "change", field := ["spec", "redisConfig", "maxmemory"],
    old := .str "a", new := .str "b" }

/-- The redis-enabling diff entry `(change, (spec, redis, enabled), false, true)`. -/
def exDiffRedisEnable : DiffEntry :=
  { oper := "change", field := ["spec", "redis", "enabled"],
    old := .bool false, new := .bool true }

/-! ## Spec-modelled definition for the C2 refinement comparison -/

/-- `needle` occurs as a contiguous sublist of `hay`. -/
def containsSubList (needle : List Char) : List Char → Bool
  | [] => needle.isEmpty
  | c :: rest => needle.isPrefixOf (c :: rest) || containsSubList needle rest

/-- Substring containment: `needle` occurs somewhere inside `hay`. -/
def containsSub (hay needle : String) : Bool :=
  containsSubList needle.data hay.data

/-- Modelled from the spec: "loose string containment (`"redis" in field`)" read
as a substring check over the field path, so that a segment like `redisConfig`
counts as mentioning redis.  This follows the claim's words and is compared
against the code's routing condition (tuple membership, `List.contains`). -/
def fieldMentionsRedisLoose (field : List String) : Bool :=
  field.any (fun seg => containsSub seg "redis")

theorem list_contains_eq_true_iff (l : List String) (a : String) :
    l.contains a = true ↔ a ∈ l := by
  simp [List.contains]

/-! ## Claims -/

/-- C1: the claim says any cluster error other than conflict propagates
unhandled out of `create_or_update_deployment` / `create_or_update_service`.
The code instead catches every `ApiException`, handles only status 409, and then
executes `return deployment` (resp. `return service`) with the local unbound, so
a non-conflict cluster error is swallowed and replaced by an
`UnboundLocalError`; only the conflict fallback behaves as specified. -/
theorem C1_nonconflict_error_swallowed :
    create_or_update_deployment_flow (.exc 500) (.ok exLiveDep)
      = .error (.unboundLocalError "deployment") ∧
    create_or_update_deployment_flow (.exc 500) (.ok exLiveDep)
      ≠ .error (.apiException 500) ∧
    create_or_update_service_flow (.exc 500) (.ok exSvcObj)
      = .error (.unboundLocalError "service") ∧
    create_or_update_service_flow (.exc 500) (.ok exSvcObj)
      ≠ .error (.apiException 500) ∧
    create_or_update_deployment_flow (.exc 409) (.ok exLiveDep) = .ok exLiveDep ∧
    create_or_update_service_flow (.exc 409) (.ok exSvcObj) = .ok exSvcObj := by
  refine ⟨rfl, ?_, rfl, ?_, rfl, rfl⟩ <;> intro h <;> exact PyExc.noConfusion (Except.error.inj h)

/-- C2 counterexample: the field path `(spec, redisConfig, maxmemory)` mentions
`redis` by loose string containment, yet `on_update` routes it to the podinfo
branch: on an empty cluster the whole update performs exactly one list call
(the podinfo existence check) and no redis teardown or create, returning the
children map unchanged. -/
theorem C2_loose_containment_counterexample :
    fieldMentionsRedisLoose exDiffRedisConfig.field = true ∧
    exDiffRedisConfig.field.contains "redis" = false ∧
    on_update exSpec exStatus "ns" [exDiffRedisConfig] exState
      = (.ok exChildren, { cluster := exClusterEmpty, trace := [.listDeps] }) := by
  refine ⟨by decide, by decide, rfl⟩

/-- C2 amended: a diff entry is routed to the redis policy branch exactly when
one of its field-path segments is equal to the string `redis` (Python tuple
membership); a segment that merely contains `redis` as a substring (such as
`redisConfig`) is not matched and falls through to the podinfo branch. -/
theorem C2_routing_is_exact_segment_match (spec : ParentSpec) (ns : String)
    (e : DiffEntry) (m : ChildrenMap) :
    ("redis" ∈ e.field → on_update_step spec ns e m = redis_branch spec ns e m) ∧
    ("redis" ∉ e.field → on_update_step spec ns e m = podinfo_branch spec ns m) := by
  by_cases h : "redis" ∈ e.field
  · have hc : e.field.contains "redis" = true := (list_contains_eq_true_iff _ _).mpr h
    constructor
    · intro hm
      simp only [on_update_step, hc, if_true]
    · intro hn
      exact absurd h hn
  · have hc : e.field.contains "redis" = false := by
      cases hcc : e.field.contains "redis"
      · rfl
      · exact absurd ((list_contains_eq_true_iff _ _).mp hcc) h
    constructor
    · intro hm
      exact absurd hm h
    · intro hn
      simp only [on_update_step, hc, Bool.false_eq_true, if_false]

theorem C2_routing_is_exact_segment_match_witness :
    on_update_step exSpec "ns" exDiffRedisEnable exChildren
      = redis_branch exSpec "ns" exDiffRedisEnable exChildren ∧
    on_update_step exSpec "ns" exDiffRedisConfig exChildren
      = podinfo_branch exSpec "ns" exChildren :=
  ⟨(C2_routing_is_exact_segment_match exSpec "ns" exDiffRedisEnable exChildren).1
      (by decide),
   (C2_routing_is_exact_segment_match exSpec "ns" exDiffRedisConfig exChildren).2
      (by decide)⟩

/-- C6: the podinfo environment list is the fixed
`PODINFO_CACHE_SERVER=tcp://redis:6379` variable first — unconditionally, in
particular independent of the `redis` subtree — followed by one
`PODINFO_UI_<UPPERCASED_KEY>` variable per `spec.ui` key in order; with `ui`
absent the list is just the fixed variable. -/
theorem C6_podinfo_env_construction (spec : ParentSpec) :
    podinfo_env_vars spec =
      { name := "PODINFO_CACHE_SERVER", value := "tcp://redis:6379" } ::
        (spec.ui.getD []).map
          (fun kv => { name := "PODINFO_UI_" ++ kv.1.toUpper, value := kv.2 }) ∧
    (∀ r, podinfo_env_vars { spec with redis := r } = podinfo_env_vars spec) ∧
    podinfo_env_vars { spec with ui := Option.none } =
      [{ name := "PODINFO_CACHE_SERVER", value := "tcp://redis:6379" }] :=
  ⟨rfl, fun _ => rfl, rfl⟩

/-- C7: `teardown_deployment` and `teardown_service` treat a not-found (404)
delete as success returning `None`, pass through a successful delete's status,
and re-raise any other cluster error — so deleting an absent object is
idempotent. -/
theorem C7_teardown_idempotent :
    teardown_deployment_flow (.exc 404) = .ok Option.none ∧
    teardown_service_flow (.exc 404) = .ok Option.none ∧
    (∀ st : Unit, teardown_deployment_flow (.ok st) = .ok (some st)) ∧
    (∀ st : Unit, teardown_service_flow (.ok st) = .ok (some st)) ∧
    (∀ s : Nat, s ≠ 404 → teardown_deployment_flow (.exc s) = .error (.apiException s)) ∧
    (∀ s : Nat, s ≠ 404 → teardown_service_flow (.exc s) = .error (.apiException s)) := by
  refine ⟨rfl, rfl, fun _ => rfl, fun _ => rfl, ?_, ?_⟩ <;> intro s hs <;>
    have hb : (s == 404) = false := by simpa using hs
  · simp [teardown_deployment_flow, hb]
  · simp [teardown_service_flow, hb]

theorem C7_teardown_idempotent_witness :
    teardown_deployment_flow (.exc 404) = .ok Option.none ∧
    teardown_deployment_flow (.exc 500) = .error (.apiException 500) ∧
    teardown_service_flow (.exc 500) = .error (.apiException 500) :=
  ⟨C7_teardown_idempotent.1,
   C7_teardown_idempotent.2.2.2.2.1 500 (by decide),
   C7_teardown_idempotent.2.2.2.2.2 500 (by decide)⟩

/-! ## Pure characterizations of the create-or-patch pattern -/

/-- Combined effect of `create_or_update_deployment` on a healthy cluster:
the live deployment returned, the new cluster, and the API events performed. -/
def upsertDeployment (c : Cluster) (name : String) (obj : DeploymentObj) :
    LiveDeployment × Cluster × List CallEvent :=
  match c.deployments.find? (fun d => d.obj.name == name) with
  | some d =>
    let d2 : LiveDeployment := { obj := obj, uid := d.uid, createdOn := d.createdOn }
    (d2,
     { deployments := c.deployments.map (fun x => if x.obj.name == name then d2 else x),
       services := c.services, counter := c.counter },
     [.createDep obj, .patchDep name obj])
  | Option.none =>
    let live : LiveDeployment :=
      { obj := obj, uid := mkUid c.counter, createdOn := mkCreatedOn c.counter }
    (live,
     { deployments := c.deployments ++ [live], services := c.services,
       counter := c.counter + 1 },
     [.createDep obj])

/-- Combined effect of `create_or_update_service` on a healthy cluster. -/
def upsertService (c : Cluster) (name : String) (obj : ServiceObj) :
    ServiceObj × Cluster × List CallEvent :=
  match c.services.find? (fun v => v.name == name) with
  | some _ =>
    (obj,
     { deployments := c.deployments,
       services := c.services.map (fun x => if x.name == name then obj else x),
       counter := c.counter },
     [.createSvc obj, .patchSvc name obj])
  | Option.none =>
    (obj,
     { deployments := c.deployments, services := c.services ++ [obj],
       counter := c.counter },
     [.createSvc obj])

theorem create_or_update_deployment_eq (name : String) (obj : DeploymentObj)
    (ns : String) (s : OpState) (hn : obj.name = name) :
    create_or_update_deployment name obj ns s =
      (.ok (upsertDeployment s.cluster name obj).1,
       { cluster := (upsertDeployment s.cluster name obj).2.1,
         trace := s.trace ++ (upsertDeployment s.cluster name obj).2.2 }) := by
  subst hn
  unfold create_or_update_deployment M.tryCatch api_create_namespaced_deployment
    api_patch_namespaced_deployment upsertDeployment
  cases hf : s.cluster.deployments.find? (fun d => d.obj.name == obj.name) with
  | none => simp [hf]
  | some d => simp [hf]

theorem create_or_update_service_eq (name : String) (obj : ServiceObj)
    (ns : String) (s : OpState) (hn : obj.name = name) :
    create_or_update_service name obj ns s =
      (.ok (upsertService s.cluster name obj).1,
       { cluster := (upsertService s.cluster name obj).2.1,
         trace := s.trace ++ (upsertService s.cluster name obj).2.2 }) := by
  subst hn
  unfold create_or_update_service M.tryCatch api_create_namespaced_service
    api_patch_namespaced_service upsertService
  cases hf : s.cluster.services.find? (fun v => v.name == obj.name) with
  | none => simp [hf]
  | some v => simp [hf]

theorem teardown_deployment_eq (name ns : String) (s : OpState) :
    teardown_deployment name ns s =
      (.ok (if s.cluster.deployments.any (fun d => d.obj.name == name) then some () else Option.none),
       { cluster := { deployments := s.cluster.deployments.filter (fun d => !(d.obj.name == name)),
                      services := s.cluster.services, counter := s.cluster.counter },
         trace := s.trace ++ [.deleteDep name] }) := by
  unfold teardown_deployment M.tryCatch M.bind M.pure M.throw api_delete_namespaced_deployment
  by_cases h : s.cluster.deployments.any (fun d => d.obj.name == name)
  · simp [h]
  · simp only [h, if_false, Bool.false_eq_true]
    have hfilter : s.cluster.deployments.filter (fun d => !(d.obj.name == name))
        = s.cluster.deployments := by
      apply List.filter_eq_self.mpr
      intro a ha
      have : (a.obj.name == name) = false := by
        cases hb : a.obj.name == name
        · rfl
        · exact absurd (List.any_eq_true.mpr ⟨a, ha, hb⟩) h
      simp [this]
    simp [hfilter]

theorem teardown_service_eq (name ns : String) (s : OpState) :
    teardown_service name ns s =
      (.ok (if s.cluster.services.any (fun v => v.name == name) then some () else Option.none),
       { cluster := { deployments := s.cluster.deployments,
                      services := s.cluster.services.filter (fun v => !(v.name == name)),
                      counter := s.cluster.counter },
         trace := s.trace ++ [.deleteSvc name] }) := by
  unfold teardown_service M.tryCatch M.bind M.pure M.throw api_delete_namespaced_service
  by_cases h : s.cluster.services.any (fun v => v.name == name)
  · simp [h]
  · simp only [h, if_false, Bool.false_eq_true]
    have hfilter : s.cluster.services.filter (fun v => !(v.name == name))
        = s.cluster.services := by
      apply List.filter_eq_self.mpr
      intro a ha
      have : (a.name == name) = false := by
        cases hb : a.name == name
        · rfl
        · exact absurd (List.any_eq_true.mpr ⟨a, ha, hb⟩) h
      simp [this]
    simp [hfilter]

theorem bind_def (x : M α) (f : α → M β) : (x >>= f) = M.bind x f := rfl

theorem pure_def (a : α) : (Pure.pure a : M α) = M.pure a := rfl

/-- The adopted deployment object that `create_deployment_and_service` sends to
the cluster. -/
def builtDeployObj (name ns repo tag : String) (repl : Nat) (res : Resources)
    (port : Nat) (env : Option (List EnvVar)) : DeploymentObj :=
  { name := name, ns := ns, image := repo ++ ":" ++ tag, replicas := repl,
    resources := res, port := port, env := env, adopted := true }

/-- The adopted service object that `create_deployment_and_service` sends to
the cluster. -/
def builtSvcObj (name ns : String) (port : Nat) : ServiceObj :=
  { name := name, ns := ns, port := port, adopted := true }

/-- Closed-form description of `create_deployment_and_service` on a healthy
cluster: adopt both objects, upsert the deployment, upsert the service, and
return the live deployment's `{created_on, uid}`. -/
theorem create_deployment_and_service_eq (name ns repo tag : String)
    (repl : Nat) (res : Resources) (port : Nat) (env : Option (List EnvVar))
    (s : OpState) :
    create_deployment_and_service name ns repo tag repl res port env s =
      (let rd := upsertDeployment s.cluster name (builtDeployObj name ns repo tag repl res port env)
       let rs := upsertService rd.2.1 name (builtSvcObj name ns port)
       (.ok { created_on := rd.1.createdOn, uid := rd.1.uid },
        { cluster := rs.2.1,
          trace := s.trace ++ [.adopt .deployment name, .adopt .service name]
            ++ rd.2.2 ++ rs.2.2 })) := by
  cases hf1 : s.cluster.deployments.find? (fun d => d.obj.name == name) <;>
    cases hf2 : s.cluster.services.find? (fun v => v.name == name) <;>
      simp [create_deployment_and_service, bind_def, pure_def, M.bind, M.pure,
        kopf_adopt_deployment, kopf_adopt_service, create_deployment_object,
        create_service_object, create_or_update_deployment, create_or_update_service,
        M.tryCatch, api_create_namespaced_deployment, api_patch_namespaced_deployment,
        api_create_namespaced_service, api_patch_namespaced_service,
        upsertDeployment, upsertService, builtDeployObj, builtSvcObj,
        hf1, hf2, List.append_assoc]

theorem mkUid_ne_empty (n : Nat) : mkUid n ≠ "" := by
  intro h
  have h2 := congrArg String.length h
  rw [mkUid, String.length_append] at h2
  have h3 : "uid-".length = 4 := rfl
  have h4 : "".length = 0 := rfl
  omega

theorem upsertDeployment_fst_obj (c : Cluster) (name : String) (obj : DeploymentObj) :
    (upsertDeployment c name obj).1.obj = obj := by
  unfold upsertDeployment
  cases hf : c.deployments.find? (fun d => d.obj.name == name) <;> simp

theorem upsertDeployment_uid_ne (c : Cluster) (name : String) (obj : DeploymentObj)
    (h : ∀ d ∈ c.deployments, d.uid ≠ "") :
    (upsertDeployment c name obj).1.uid ≠ "" := by
  unfold upsertDeployment
  cases hf : c.deployments.find? (fun d => d.obj.name == name) with
  | none => simpa using mkUid_ne_empty c.counter
  | some d => simpa using h d (List.mem_of_find?_eq_some hf)

theorem upsertDeployment_mem_obj (c : Cluster) (name : String) (obj : DeploymentObj) :
    ∃ x ∈ (upsertDeployment c name obj).2.1.deployments, x.obj = obj := by
  unfold upsertDeployment
  cases hf : c.deployments.find? (fun d => d.obj.name == name) with
  | none =>
    refine ⟨{ obj := obj, uid := mkUid c.counter, createdOn := mkCreatedOn c.counter }, ?_, rfl⟩
    simp
  | some d =>
    have hd := List.mem_of_find?_eq_some hf
    have hp := List.find?_some hf
    simp only [] at hp
    refine ⟨{ obj := obj, uid := d.uid, createdOn := d.createdOn }, ?_, rfl⟩
    exact List.mem_map.mpr ⟨d, hd, by rw [if_pos hp]⟩

theorem upsertDeployment_preserves_other (c : Cluster) (name : String)
    (obj : DeploymentObj) (hn : obj.name = name) :
    ∀ x ∈ (upsertDeployment c name obj).2.1.deployments,
      x.obj.name ≠ name → x ∈ c.deployments := by
  unfold upsertDeployment
  cases hf : c.deployments.find? (fun d => d.obj.name == name) with
  | none =>
    intro x hx hxn
    simp only [List.mem_append, List.mem_singleton] at hx
    rcases hx with hx | hx
    · exact hx
    · exact absurd (by rw [hx]; exact hn) hxn
  | some d =>
    intro x hx hxn
    simp only [List.mem_map] at hx
    obtain ⟨y, hy, hyx⟩ := hx
    by_cases hc : (y.obj.name == name) = true
    · rw [if_pos hc] at hyx
      exact absurd (by rw [← hyx]; exact hn) hxn
    · rw [if_neg hc] at hyx
      rw [← hyx]
      exact hy

theorem upsertDeployment_uids_preserved (c : Cluster) (name : String)
    (obj : DeploymentObj) (h : ∀ d ∈ c.deployments, d.uid ≠ "") :
    ∀ x ∈ (upsertDeployment c name obj).2.1.deployments, x.uid ≠ "" := by
  unfold upsertDeployment
  cases hf : c.deployments.find? (fun d => d.obj.name == name) with
  | none =>
    intro x hx
    simp only [List.mem_append, List.mem_singleton] at hx
    rcases hx with hx | hx
    · exact h x hx
    · rw [hx]
      exact mkUid_ne_empty c.counter
  | some d =>
    intro x hx
    simp only [List.mem_map] at hx
    obtain ⟨y, hy, hyx⟩ := hx
    by_cases hc : (y.obj.name == name) = true
    · rw [if_pos hc] at hyx
      rw [← hyx]
      exact h d (List.mem_of_find?_eq_some hf)
    · rw [if_neg hc] at hyx
      rw [← hyx]
      exact h y hy

theorem upsertService_deployments (c : Cluster) (name : String) (obj : ServiceObj) :
    (upsertService c name obj).2.1.deployments = c.deployments := by
  unfold upsertService
  cases hf : c.services.find? (fun v => v.name == name) <;> simp

theorem upsertService_counter (c : Cluster) (name : String) (obj : ServiceObj) :
    (upsertService c name obj).2.1.counter = c.counter := by
  unfold upsertService
  cases hf : c.services.find? (fun v => v.name == name) <;> simp

theorem upsertDeployment_services (c : Cluster) (name : String) (obj : DeploymentObj) :
    (upsertDeployment c name obj).2.1.services = c.services := by
  unfold upsertDeployment
  cases hf : c.deployments.find? (fun d => d.obj.name == name) <;> simp

theorem upsertService_preserves_other (c : Cluster) (name : String)
    (obj : ServiceObj) (hn : obj.name = name) :
    ∀ v ∈ (upsertService c name obj).2.1.services,
      v.name ≠ name → v ∈ c.services := by
  unfold upsertService
  cases hf : c.services.find? (fun v => v.name == name) with
  | none =>
    intro v hv hvn
    simp only [List.mem_append, List.mem_singleton] at hv
    rcases hv with hv | hv
    · exact hv
    · exact absurd (by rw [hv]; exact hn) hvn
  | some w =>
    intro v hv hvn
    simp only [List.mem_map] at hv
    obtain ⟨y, hy, hyv⟩ := hv
    by_cases hc : (y.name == name) = true
    · rw [if_pos hc] at hyv
      exact absurd (by rw [← hyv]; exact hn) hvn
    · rw [if_neg hc] at hyv
      rw [← hyv]
      exact hy

/-- Trace check for the adoption contract: scanning left to right while
remembering which (kind, name) pairs have been adopted, every create or patch
event must send an adopted object whose name was adopted earlier in the trace. -/
def wellAdopted (seenDeps seenSvcs : List String) : List CallEvent → Bool
  | [] => true
  | .adopt .deployment n :: rest => wellAdopted (n :: seenDeps) seenSvcs rest
  | .adopt .service n :: rest => wellAdopted seenDeps (n :: seenSvcs) rest
  | .createDep obj :: rest =>
    obj.adopted && seenDeps.contains obj.name && wellAdopted seenDeps seenSvcs rest
  | .patchDep n obj :: rest =>
    obj.adopted && seenDeps.contains n && wellAdopted seenDeps seenSvcs rest
  | .createSvc obj :: rest =>
    obj.adopted && seenSvcs.contains obj.name && wellAdopted seenDeps seenSvcs rest
  | .patchSvc n obj :: rest =>
    obj.adopted && seenSvcs.contains n && wellAdopted seenDeps seenSvcs rest
  | .deleteDep _ :: rest => wellAdopted seenDeps seenSvcs rest
  | .deleteSvc _ :: rest => wellAdopted seenDeps seenSvcs rest
  | .listDeps :: rest => wellAdopted seenDeps seenSvcs rest

theorem wellAdopted_upsert_trace (name : String) (dObj : DeploymentObj)
    (sObj : ServiceObj) (c c1 : Cluster)
    (hdn : dObj.name = name) (hsn : sObj.name = name)
    (hda : dObj.adopted = true) (hsa : sObj.adopted = true) :
    wellAdopted [] []
      ([.adopt .deployment name, .adopt .service name]
        ++ (upsertDeployment c name dObj).2.2 ++ (upsertService c1 name sObj).2.2)
      = true := by
  unfold upsertDeployment upsertService
  cases hf1 : c.deployments.find? (fun d => d.obj.name == name) <;>
    cases hf2 : c1.services.find? (fun v => v.name == name) <;>
      simp [wellAdopted, List.contains, hdn, hsn, hda, hsa]

/-- The adopted podinfo deployment object that the create path sends to the
cluster for a given spec. -/
def podinfoDeployObjAdopted (ns : String) (spec : ParentSpec) : DeploymentObj :=
  builtDeployObj PODINFO_DEPLOYMENT_NAME ns spec.image.repository spec.image.tag
    spec.replicaCount
    { requests := [("cpu", spec.resources.cpuRequest)],
      limits := [("memory", spec.resources.memoryLimit)] }
    PODINFO_PORT (some (podinfo_env_vars spec))

/-- The adopted redis deployment object that the create path sends to the
cluster: fixed image `redis:7.0.12`, one replica, fixed resources, no env. -/
def redisDeployObjAdopted (ns : String) : DeploymentObj :=
  builtDeployObj REDIS_DEPLOYMENT_NAME ns "redis" "7.0.12" 1 redis_resources
    REDIS_PORT Option.none

/-- C8: in the trace of every create sequence (podinfo and redis alike), each
child object is adopted (owner reference to the parent) before it is passed to
create-or-update: every create/patch event carries an adopted object whose name
was the subject of an earlier adopt event of the same kind. -/
theorem C8_children_adopted_before_apply (c : Cluster) (ns : String) (spec : ParentSpec) :
    wellAdopted [] []
      ((create_podinfo_deployment_and_service ns spec { cluster := c, trace := [] }).2.trace)
      = true ∧
    wellAdopted [] []
      ((create_redis_deployment_and_service ns spec { cluster := c, trace := [] }).2.trace)
      = true := by
  constructor
  · unfold create_podinfo_deployment_and_service
    rw [create_deployment_and_service_eq]
    simp only [List.nil_append]
    exact wellAdopted_upsert_trace _ _ _ _ _ rfl rfl rfl rfl
  · unfold create_redis_deployment_and_service
    rw [create_deployment_and_service_eq]
    simp only [List.nil_append]
    exact wellAdopted_upsert_trace _ _ _ _ _ rfl rfl rfl rfl

theorem enabled_field_contains_redis :
    (["spec", "redis", "enabled"] : List String).contains "redis" = true := by decide

theorem enabled_field_beq_self :
    ((["spec", "redis", "enabled"] : List String) == ["spec", "redis", "enabled"]) = true := by
  decide

/-- C3: on an Update diff entry whose field path is exactly
`(spec, redis, enabled)` with a truthy new value, when no "redis" deployment
exists the full redis create sequence runs (a create call for the adopted redis
object appears in the trace, the redis deployment lands in the cluster) and its
`ChildStatus` is merged into the status map under the key `redis`; when a
"redis" deployment already exists the handler performs only the existence check
and makes no create or patch call, leaving cluster state and status map
unchanged. -/
theorem C3_redis_enable_no_duplicate_create (spec : ParentSpec) (ns : String)
    (e : DiffEntry) (m : ChildrenMap) (s : OpState)
    (hf : e.field = ["spec", "redis", "enabled"]) (ht : e.new.truthy = true) :
    (s.cluster.deployments.find? (fun d => d.obj.name == "redis") = Option.none →
      (on_update_step spec ns e m s).1 =
        .ok (dictUpdate m "redis"
          { created_on := mkCreatedOn s.cluster.counter, uid := mkUid s.cluster.counter }) ∧
      CallEvent.createDep (redisDeployObjAdopted ns) ∈ (on_update_step spec ns e m s).2.trace ∧
      ({ obj := redisDeployObjAdopted ns, uid := mkUid s.cluster.counter,
         createdOn := mkCreatedOn s.cluster.counter } : LiveDeployment)
        ∈ (on_update_step spec ns e m s).2.cluster.deployments) ∧
    (∀ d0, s.cluster.deployments.find? (fun d => d.obj.name == "redis") = some d0 →
      on_update_step spec ns e m s = (.ok m, { s with trace := s.trace ++ [.listDeps] })) := by
  obtain ⟨op, f, ov, nv⟩ := e
  simp only [] at hf ht
  subst hf
  constructor
  · intro hnone
    cases hsvc : s.cluster.services.find? (fun v => v.name == "redis") <;>
      refine ⟨?_, ?_, ?_⟩ <;>
        simp [on_update_step, redis_branch, bind_def, pure_def, M.bind, M.pure,
          get_deployment, create_redis_deployment_and_service,
          create_deployment_and_service_eq, upsertDeployment, upsertService,
          builtDeployObj, builtSvcObj, redisDeployObjAdopted,
          REDIS_DEPLOYMENT_NAME, REDIS_PORT,
          enabled_field_contains_redis, enabled_field_beq_self, ht, hnone, hsvc]
  · intro d0 hd0
    simp [on_update_step, redis_branch, bind_def, pure_def, M.bind, M.pure,
      get_deployment, enabled_field_contains_redis, enabled_field_beq_self, ht, hd0]

/-- Closed-form description of `on_create` on a healthy cluster: the podinfo
upsert always runs first; the redis upsert runs exactly when
`spec.redis.enabled` is truthy, otherwise redis reports `DEFAULT_STATUS`. -/
theorem on_create_eq (spec : ParentSpec) (ns : String) (s : OpState) :
    on_create spec ns s =
      (let pObj := builtDeployObj PODINFO_DEPLOYMENT_NAME ns spec.image.repository
         spec.image.tag spec.replicaCount
         { requests := [("cpu", spec.resources.cpuRequest)],
           limits := [("memory", spec.resources.memoryLimit)] }
         PODINFO_PORT (some (podinfo_env_vars spec))
       let rdP := upsertDeployment s.cluster PODINFO_DEPLOYMENT_NAME pObj
       let rsP := upsertService rdP.2.1 PODINFO_DEPLOYMENT_NAME
         (builtSvcObj PODINFO_DEPLOYMENT_NAME ns PODINFO_PORT)
       let trace1 := s.trace
         ++ [.adopt .deployment PODINFO_DEPLOYMENT_NAME, .adopt .service PODINFO_DEPLOYMENT_NAME]
         ++ rdP.2.2 ++ rsP.2.2
       if specRedisEnabled spec then
         let rObj := builtDeployObj REDIS_DEPLOYMENT_NAME ns "redis" "7.0.12" 1
           redis_resources REDIS_PORT Option.none
         let rdR := upsertDeployment rsP.2.1 REDIS_DEPLOYMENT_NAME rObj
         let rsR := upsertService rdR.2.1 REDIS_DEPLOYMENT_NAME
           (builtSvcObj REDIS_DEPLOYMENT_NAME ns REDIS_PORT)
         (.ok { children :=
                  [("redis", { created_on := rdR.1.createdOn, uid := rdR.1.uid }),
                   ("podInfo", { created_on := rdP.1.createdOn, uid := rdP.1.uid })] },
          { cluster := rsR.2.1,
            trace := trace1
              ++ [.adopt .deployment REDIS_DEPLOYMENT_NAME, .adopt .service REDIS_DEPLOYMENT_NAME]
              ++ rdR.2.2 ++ rsR.2.2 })
       else
         (.ok { children :=
                  [("redis", DEFAULT_STATUS),
                   ("podInfo", { created_on := rdP.1.createdOn, uid := rdP.1.uid })] },
          { cluster := rsP.2.1, trace := trace1 })) := by
  by_cases hre : specRedisEnabled spec <;>
    simp [on_create, create_podinfo_deployment_and_service,
      create_redis_deployment_and_service, bind_def, pure_def, M.bind, M.pure,
      create_deployment_and_service_eq, hre, List.append_assoc]

/-- C5: on Create, when `spec.redis.enabled` is truthy the redis create
sequence runs — the cluster afterwards holds a deployment whose body is the
fixed adopted redis object (image `redis:7.0.12`, one replica, the fixed
resource profile, no env vars) — and the returned `redis` status has a
non-empty uid (provided the cluster's existing uids are non-empty, as the
modelled server guarantees for its own); when `spec.redis.enabled` is falsy or
absent, the returned map is exactly
`children = [(redis, DEFAULT_STATUS), (podInfo, podinfo status)]` and no
redis-named deployment or service is added to the cluster. -/
theorem C5_on_create_redis_conditional (spec : ParentSpec) (ns : String) (s : OpState) :
    (specRedisEnabled spec = true → (∀ d ∈ s.cluster.deployments, d.uid ≠ "") →
      ∃ rst pst,
        (on_create spec ns s).1 = .ok { children := [("redis", rst), ("podInfo", pst)] } ∧
        rst.uid ≠ "" ∧
        (∃ d ∈ (on_create spec ns s).2.cluster.deployments,
          d.obj = redisDeployObjAdopted ns)) ∧
    (specRedisEnabled spec = false →
      ∃ pst,
        (on_create spec ns s).1 =
          .ok { children := [("redis", DEFAULT_STATUS), ("podInfo", pst)] } ∧
        (∀ d ∈ (on_create spec ns s).2.cluster.deployments,
          d.obj.name = "redis" → d ∈ s.cluster.deployments) ∧
        (∀ v ∈ (on_create spec ns s).2.cluster.services,
          v.name = "redis" → v ∈ s.cluster.services)) := by
  constructor
  · intro hre h
    rw [on_create_eq]
    simp only [hre, if_true]
    refine ⟨_, _, rfl, ?_, ?_⟩
    · -- the redis status uid comes from the redis upsert on the post-podinfo cluster
      apply upsertDeployment_uid_ne
      rw [upsertService_deployments]
      exact upsertDeployment_uids_preserved _ _ _ h
    · -- the redis deployment body lands in the final cluster
      rw [upsertService_deployments]
      exact upsertDeployment_mem_obj _ _ _
  · intro hre
    rw [on_create_eq]
    simp only [hre, if_false, Bool.false_eq_true]
    refine ⟨_, rfl, ?_, ?_⟩
    · intro d hd hname
      rw [upsertService_deployments] at hd
      refine upsertDeployment_preserves_other s.cluster PODINFO_DEPLOYMENT_NAME _ rfl d hd ?_
      rw [hname]
      decide
    · intro v hv hname
      have hv2 := upsertService_preserves_other _ PODINFO_DEPLOYMENT_NAME
        (builtSvcObj PODINFO_DEPLOYMENT_NAME ns PODINFO_PORT) rfl v hv
        (by rw [hname]; decide)
      rw [upsertDeployment_services] at hv2
      exact hv2

/-- C4: on an Update diff entry touching a non-redis field, the podinfo
build/adopt/create-or-update sequence is re-run only when a "podinfo"
deployment exists (the patch call appears in the trace and the refreshed
status is merged under `podInfo`, keeping the live deployment's uid and
creation timestamp); when no "podinfo" deployment exists the entry is silently
skipped: the handler performs only the existence check, makes no create or
patch call, and leaves the cluster and the status map unchanged. -/
theorem C4_podinfo_update_guard (spec : ParentSpec) (ns : String) (e : DiffEntry)
    (m : ChildrenMap) (s : OpState)
    (hnr : e.field.contains "redis" = false) :
    (∀ d0, s.cluster.deployments.find? (fun d => d.obj.name == "podinfo") = some d0 →
      (on_update_step spec ns e m s).1 =
        .ok (dictUpdate m "podInfo" { created_on := d0.createdOn, uid := d0.uid }) ∧
      CallEvent.patchDep "podinfo" (podinfoDeployObjAdopted ns spec)
        ∈ (on_update_step spec ns e m s).2.trace) ∧
    (s.cluster.deployments.find? (fun d => d.obj.name == "podinfo") = Option.none →
      on_update_step spec ns e m s = (.ok m, { s with trace := s.trace ++ [.listDeps] })) := by
  have hmem : "redis" ∉ e.field := by
    intro hm
    have hc := (list_contains_eq_true_iff e.field "redis").mpr hm
    rw [hnr] at hc
    exact Bool.noConfusion hc
  constructor
  · intro d0 hd0
    cases hsvc : s.cluster.services.find? (fun v => v.name == "podinfo") <;>
      refine ⟨?_, ?_⟩ <;>
        simp [on_update_step, podinfo_branch, bind_def, pure_def, M.bind, M.pure,
          get_deployment, create_podinfo_deployment_and_service,
          create_deployment_and_service_eq, upsertDeployment, upsertService,
          builtDeployObj, builtSvcObj, podinfoDeployObjAdopted,
          PODINFO_DEPLOYMENT_NAME, PODINFO_PORT, hmem, hd0, hsvc]
  · intro hnone
    simp [on_update_step, podinfo_branch, bind_def, pure_def, M.bind, M.pure,
      get_deployment, hmem, hnone]

theorem lookup_append_single_of_ne (m : ChildrenMap) (k k2 : String) (v : ChildStatus)
    (h : k2 ≠ k) : List.lookup k2 (m ++ [(k, v)]) = List.lookup k2 m := by
  induction m with
  | nil => simp [List.lookup, beq_eq_false_iff_ne.mpr h]
  | cons a tl ih =>
    cases hb : (k2 == a.1) <;> simp [List.lookup, hb, ih]

theorem lookup_map_replace (k k2 : String) (v : ChildStatus) (h : k2 ≠ k) :
    ∀ tl : ChildrenMap,
      List.lookup k2 (tl.map (fun kv => if kv.1 == k then (k, v) else kv))
        = List.lookup k2 tl := by
  intro tl
  induction tl with
  | nil => rfl
  | cons a tl ih =>
    obtain ⟨a1, a2⟩ := a
    simp only [List.map_cons]
    by_cases ha : (a1 == k) = true
    · rw [if_pos ha]
      simp only [List.lookup_cons]
      have hak : a1 = k := eq_of_beq ha
      have h1 : (k2 == k) = false := beq_eq_false_iff_ne.mpr h
      have h2 : (k2 == a1) = false := by rw [hak]; exact h1
      rw [h1, h2]
      exact ih
    · rw [if_neg ha]
      simp only [List.lookup_cons]
      cases hb : (k2 == a1)
      · rw [ih]
      · rfl

theorem dictUpdate_lookup_other (m : ChildrenMap) (k k2 : String) (v : ChildStatus)
    (h : k2 ≠ k) : List.lookup k2 (dictUpdate m k v) = List.lookup k2 m := by
  unfold dictUpdate
  by_cases hany : m.any (fun kv => kv.1 == k)
  · rw [if_pos hany]
    exact lookup_map_replace k k2 v h m
  · rw [if_neg hany]
    exact lookup_append_single_of_ne m k k2 v h

/-- Closure of a children map under the merges `on_update` may perform: the
result is the starting map with some sequence of `dictUpdate`s at the keys
`redis` and `podInfo`. -/
inductive MergedFrom (m : ChildrenMap) : ChildrenMap → Prop
  | refl : MergedFrom m m
  | redis (m2 : ChildrenMap) (st : ChildStatus) :
      MergedFrom m m2 → MergedFrom m (dictUpdate m2 "redis" st)
  | podinfo (m2 : ChildrenMap) (st : ChildStatus) :
      MergedFrom m m2 → MergedFrom m (dictUpdate m2 "podInfo" st)

theorem MergedFrom.trans {a b c : ChildrenMap} (h1 : MergedFrom a b)
    (h2 : MergedFrom b c) : MergedFrom a c := by
  induction h2 with
  | refl => exact h1
  | redis m2 st _ ih => exact .redis m2 st ih
  | podinfo m2 st _ ih => exact .podinfo m2 st ih

theorem MergedFrom.lookup_other {a b : ChildrenMap} (h : MergedFrom a b) :
    ∀ k, k ≠ "redis" → k ≠ "podInfo" → List.lookup k b = List.lookup k a := by
  induction h with
  | refl => exact fun k _ _ => rfl
  | redis m2 st _ ih =>
    intro k h1 h2
    rw [dictUpdate_lookup_other m2 "redis" k st h1]
    exact ih k h1 h2
  | podinfo m2 st _ ih =>
    intro k h1 h2
    rw [dictUpdate_lookup_other m2 "podInfo" k st h2]
    exact ih k h1 h2

/-- Every single diff entry is handled successfully and either leaves the
status map alone or merges one freshly computed status under `redis` or
`podInfo`. -/
theorem on_update_step_shape (spec : ParentSpec) (ns : String) (e : DiffEntry)
    (m : ChildrenMap) (s : OpState) :
    ∃ m2, (on_update_step spec ns e m s).1 = .ok m2 ∧
      (m2 = m ∨ (∃ st, m2 = dictUpdate m "redis" st) ∨
        (∃ st, m2 = dictUpdate m "podInfo" st)) := by
  unfold on_update_step
  cases hcont : e.field.contains "redis" with
  | false =>
    cases hdep : s.cluster.deployments.find? (fun d => d.obj.name == "podinfo") with
    | some d =>
      refine ⟨dictUpdate m "podInfo" { created_on := d.createdOn, uid := d.uid }, ?_,
        Or.inr (Or.inr ⟨_, rfl⟩)⟩
      simp [podinfo_branch, bind_def, pure_def, M.bind, M.pure, get_deployment,
        hcont, hdep, create_podinfo_deployment_and_service,
        create_deployment_and_service_eq, upsertDeployment, PODINFO_DEPLOYMENT_NAME]
    | none =>
      refine ⟨m, ?_, Or.inl rfl⟩
      simp [podinfo_branch, bind_def, pure_def, M.bind, M.pure, get_deployment,
        hcont, hdep]
  | true =>
    cases hf : e.field == ["spec", "redis", "enabled"] with
    | false =>
      refine ⟨m, ?_, Or.inl rfl⟩
      simp [redis_branch, bind_def, pure_def, M.bind, M.pure, hcont, hf,
        teardown_deployment_eq, teardown_service_eq]
    | true =>
      cases htr : e.new.truthy with
      | false =>
        refine ⟨m, ?_, Or.inl rfl⟩
        simp [redis_branch, bind_def, pure_def, M.bind, M.pure, hcont, hf, htr,
          teardown_deployment_eq, teardown_service_eq]
      | true =>
        cases hdep : s.cluster.deployments.find? (fun d => d.obj.name == "redis") with
        | some d =>
          refine ⟨m, ?_, Or.inl rfl⟩
          simp [redis_branch, bind_def, pure_def, M.bind, M.pure, get_deployment,
            hcont, hf, htr, hdep]
        | none =>
          refine ⟨dictUpdate m "redis"
            { created_on := mkCreatedOn s.cluster.counter, uid := mkUid s.cluster.counter },
            ?_, Or.inr (Or.inl ⟨_, rfl⟩)⟩
          simp [redis_branch, bind_def, pure_def, M.bind, M.pure, get_deployment,
            hcont, hf, htr, hdep, create_redis_deployment_and_service,
            create_deployment_and_service_eq, upsertDeployment, REDIS_DEPLOYMENT_NAME]

theorem on_update_loop_merged (spec : ParentSpec) (ns : String) :
    ∀ (diff : List DiffEntry) (m : ChildrenMap) (s : OpState),
      ∃ m2 s2, on_update_loop spec ns diff m s = (.ok m2, s2) ∧ MergedFrom m m2 := by
  intro diff
  induction diff with
  | nil => exact fun m s => ⟨m, s, rfl, .refl⟩
  | cons e rest ih =>
    intro m s
    obtain ⟨m1, h1, hshape⟩ := on_update_step_shape spec ns e m s
    obtain ⟨m2, s2, h2, hm⟩ := ih m1 (on_update_step spec ns e m s).2
    have hstep : on_update_step spec ns e m s = (.ok m1, (on_update_step spec ns e m s).2) := by
      rw [← h1]
    refine ⟨m2, s2, ?_, ?_⟩
    · unfold on_update_loop
      simp only [bind_def, M.bind]
      rw [hstep]
      exact h2
    · have hm1 : MergedFrom m m1 := by
        rcases hshape with h | ⟨st, h⟩ | ⟨st, h⟩
        · rw [h]
          exact .refl
        · rw [h]
          exact .redis m st .refl
        · rw [h]
          exact .podinfo m st .refl
      exact hm1.trans hm

/-- C9: `on_update` starts from the children map read at
`status.on_create.children`, handles every diff entry successfully, and returns
that map with only merges at the component keys `redis` / `podInfo` applied;
entries under any other key are carried over unchanged, and an empty diff
returns the starting map itself. -/
theorem C9_on_update_status_merge (spec : ParentSpec) (ns : String)
    (status : PersistedStatus) (diff : List DiffEntry) (s : OpState)
    (oc : CreateStatus) (m : ChildrenMap)
    (hoc : status.on_create = some oc) (hch : oc.children = some m) :
    ∃ m2 s2, on_update spec status ns diff s = (.ok m2, s2) ∧
      MergedFrom m m2 ∧
      (∀ k, k ≠ "redis" → k ≠ "podInfo" → List.lookup k m2 = List.lookup k m) ∧
      (diff = [] → m2 = m) := by
  obtain ⟨m2, s2, hrun, hm⟩ := on_update_loop_merged spec ns diff m s
  refine ⟨m2, s2, ?_, hm, hm.lookup_other, ?_⟩
  · unfold on_update
    simp only [hoc, hch, bind_def, pure_def, M.bind, M.pure]
    exact hrun
  · intro hdiff
    subst hdiff
    have h := hrun
    simp only [on_update_loop, pure_def, M.pure] at h
    rw [Prod.mk.injEq] at h
    exact (Except.ok.inj h.1).symm

/-- C10: when the persisted status lacks the `on_create` key (or its `children`
subkey), `on_update` raises the corresponding `KeyError` immediately: the state
— cluster and call trace alike — is returned untouched, for every diff, so no
cluster call is made and a persisted Create status is a precondition of every
update. -/
theorem C10_update_requires_create_status (spec : ParentSpec) (ns : String)
    (status : PersistedStatus) (diff : List DiffEntry) (s : OpState) :
    (status.on_create = Option.none →
      on_update spec status ns diff s = (.error (.keyError "on_create"), s)) ∧
    (∀ oc, status.on_create = some oc → oc.children = Option.none →
      on_update spec status ns diff s = (.error (.keyError "children"), s)) := by
  constructor
  · intro h
    unfold on_update
    simp [h, bind_def, M.bind, M.throw]
  · intro oc h1 h2
    unfold on_update
    simp [h1, h2, bind_def, pure_def, M.bind, M.pure, M.throw]

/-! ## Witness fixtures and witnesses -/

def exLiveRedis : LiveDeployment :=
  { obj := redisDeployObjAdopted "ns", uid := "uid-r", createdOn := "ts-r" }

def exStateRedis : OpState :=
  { cluster := { deployments := [exLiveRedis], services := [], counter := 5 }, trace := [] }

def exDiffImageTag : DiffEntry :=
  { oper := "change", field := ["spec", "image", "tag"], old := .str "v1", new := .str "v2" }

def exLivePodinfo : LiveDeployment :=
  { obj := podinfoDeployObjAdopted "ns" exSpec, uid := "uid-p", createdOn := "ts-p" }

def exStatePodinfo : OpState :=
  { cluster := { deployments := [exLivePodinfo], services := [], counter := 3 }, trace := [] }

def exSpecNoRedis : ParentSpec := { exSpec with redis := Option.none }

def exStatusNoOnCreate : PersistedStatus := { on_create := Option.none }

def exStatusNoChildren : PersistedStatus := { on_create := some { children := Option.none } }

theorem C3_redis_enable_no_duplicate_create_witness :
    ((on_update_step exSpec "ns" exDiffRedisEnable exChildren exState).1 =
        .ok (dictUpdate exChildren "redis"
          { created_on := mkCreatedOn 0, uid := mkUid 0 }) ∧
      CallEvent.createDep (redisDeployObjAdopted "ns")
        ∈ (on_update_step exSpec "ns" exDiffRedisEnable exChildren exState).2.trace ∧
      ({ obj := redisDeployObjAdopted "ns", uid := mkUid 0,
         createdOn := mkCreatedOn 0 } : LiveDeployment)
        ∈ (on_update_step exSpec "ns" exDiffRedisEnable exChildren exState).2.cluster.deployments) ∧
    on_update_step exSpec "ns" exDiffRedisEnable exChildren exStateRedis =
      (.ok exChildren, { exStateRedis with trace := [.listDeps] }) :=
  ⟨(C3_redis_enable_no_duplicate_create exSpec "ns" exDiffRedisEnable exChildren
      exState rfl rfl).1 rfl,
   (C3_redis_enable_no_duplicate_create exSpec "ns" exDiffRedisEnable exChildren
      exStateRedis rfl rfl).2 exLiveRedis rfl⟩

theorem C4_podinfo_update_guard_witness :
    ((on_update_step exSpec "ns" exDiffImageTag exChildren exStatePodinfo).1 =
        .ok (dictUpdate exChildren "podInfo" { created_on := "ts-p", uid := "uid-p" }) ∧
      CallEvent.patchDep "podinfo" (podinfoDeployObjAdopted "ns" exSpec)
        ∈ (on_update_step exSpec "ns" exDiffImageTag exChildren exStatePodinfo).2.trace) ∧
    on_update_step exSpec "ns" exDiffImageTag exChildren exState =
      (.ok exChildren, { exState with trace := [.listDeps] }) :=
  ⟨(C4_podinfo_update_guard exSpec "ns" exDiffImageTag exChildren exStatePodinfo
      (by decide)).1 exLivePodinfo rfl,
   (C4_podinfo_update_guard exSpec "ns" exDiffImageTag exChildren exState
      (by decide)).2 rfl⟩

theorem C5_on_create_redis_conditional_witness :
    (∃ rst pst,
        (on_create exSpec "ns" exState).1 =
          .ok { children := [("redis", rst), ("podInfo", pst)] } ∧
        rst.uid ≠ "" ∧
        (∃ d ∈ (on_create exSpec "ns" exState).2.cluster.deployments,
          d.obj = redisDeployObjAdopted "ns")) ∧
    (∃ pst,
        (on_create exSpecNoRedis "ns" exState).1 =
          .ok { children := [("redis", DEFAULT_STATUS), ("podInfo", pst)] } ∧
        (∀ d ∈ (on_create exSpecNoRedis "ns" exState).2.cluster.deployments,
          d.obj.name = "redis" → d ∈ exState.cluster.deployments) ∧
        (∀ v ∈ (on_create exSpecNoRedis "ns" exState).2.cluster.services,
          v.name = "redis" → v ∈ exState.cluster.services)) :=
  ⟨(C5_on_create_redis_conditional exSpec "ns" exState).1 rfl
      (by intro d hd; exact absurd hd (List.not_mem_nil d)),
   (C5_on_create_redis_conditional exSpecNoRedis "ns" exState).2 rfl⟩

theorem C9_on_update_status_merge_witness :
    ∃ m2 s2, on_update exSpec exStatus "ns" [] exState = (.ok m2, s2) ∧
      MergedFrom exChildren m2 ∧
      (∀ k, k ≠ "redis" → k ≠ "podInfo" → List.lookup k m2 = List.lookup k exChildren) ∧
      (([] : List DiffEntry) = [] → m2 = exChildren) :=
  C9_on_update_status_merge exSpec "ns" exStatus [] exState
    { children := some exChildren } exChildren rfl rfl

theorem C10_update_requires_create_status_witness :
    on_update exSpec exStatusNoOnCreate "ns" [exDiffRedisEnable] exState =
      (.error (.keyError "on_create"), exState) ∧
    on_update exSpec exStatusNoChildren "ns" [exDiffRedisEnable] exState =
      (.error (.keyError "children"), exState) :=
  ⟨(C10_update_requires_create_status exSpec "ns" exStatusNoOnCreate
      [exDiffRedisEnable] exState).1 rfl,
   (C10_update_requires_create_status exSpec "ns" exStatusNoChildren
      [exDiffRedisEnable] exState).2 { children := Option.none } rfl rfl⟩
